import Mathlib

/-
  Verification of the pgmoneta natural-language specification against the
  sources src/libpgmoneta/walfile/relpath.c and src/libpgmoneta/archive.c.

  The embedding is shallow: each C function becomes a Lean function over
  Nat/Int/String, with errno-setting NULL returns modelled as
  Except CErrno String.  Allocation failures (malloc / format failure,
  errno ENOMEM) are assumed not to occur; the enomem constructor exists to
  keep the error type faithful but is never produced by the model.
-/

/-- The errno values relpath.c sets on failure: EINVAL for validation
errors, ENOMEM for allocation exhaustion. -/
inductive CErrno
| einval
| enomem
deriving DecidableEq

deriving instance DecidableEq for Except

/-- GLOBALTABLESPACE_OID from the relpath header (the standard engine
constant for the global tablespace). -/
def GLOBALTABLESPACE_OID : Nat := 1664

/-- DEFAULTTABLESPACE_OID from the relpath header (the standard engine
constant for the default tablespace). -/
def DEFAULTTABLESPACE_OID : Nat := 1663

/-- INVALID_BACKEND_ID from the relpath header: backend ids are plain
ints, -1 marks a non-temporary relation. -/
def INVALID_BACKEND_ID : Int := -1

/-- MAIN_FORKNUM: first value of enum fork_number. -/
def MAIN_FORKNUM : Int := 0

/-- FSM_FORKNUM: free-space-map fork. -/
def FSM_FORKNUM : Int := 1

/-- VISIBILITYMAP_FORKNUM: visibility-map fork. -/
def VISIBILITYMAP_FORKNUM : Int := 2

/-- INIT_FORKNUM: last value of enum fork_number. -/
def INIT_FORKNUM : Int := 3

/-- MIN_PG_VERSION from relpath.c. -/
def MIN_PG_VERSION : Int := 13

/-- MAX_PG_VERSION from relpath.c. -/
def MAX_PG_VERSION : Int := 17

/-- is_valid_fork_number from relpath.c: the enum value (a C int) must lie
between MAIN_FORKNUM and INIT_FORKNUM inclusive. -/
def is_valid_fork_number (forkNumber : Int) : Bool :=
  MAIN_FORKNUM ≤ forkNumber && forkNumber ≤ INIT_FORKNUM

/-- The FORK_NAMES array of relpath.c, as a function of the index.  The
array is only ever indexed with a validated fork number, so the
out-of-range result (the empty string) is never consulted. -/
def FORK_NAMES (forkNumber : Int) : String :=
  if forkNumber = 0 then ("main")
  else if forkNumber = 1 then ("fsm")
  else if forkNumber = 2 then ("vm")
  else if forkNumber = 3 then ("init")
  else ("")

/-- The part of the process-wide server_config relpath.c reads: the target
major version.  The C global pointer may be NULL, hence Option at every
use site. -/
structure ServerConfig where
  version : Int
deriving DecidableEq

/-- pgmoneta_wal_get_catalog_version_number from relpath.c: NULL config or
an out-of-range version sets errno EINVAL; otherwise a switch returns the
catalog constant for versions 13 through 17. -/
def pgmoneta_wal_get_catalog_version_number (server_config : Option ServerConfig) :
    Except CErrno String :=
  match server_config with
  | none => Except.error CErrno.einval
  | some c =>
    if c.version < MIN_PG_VERSION ∨ c.version > MAX_PG_VERSION then
      Except.error CErrno.einval
    else if c.version = 13 then Except.ok ("202004022")
    else if c.version = 14 then Except.ok ("202104081")
    else if c.version = 15 then Except.ok ("202204062")
    else if c.version = 16 then Except.ok ("202303311")
    else if c.version = 17 then Except.ok ("202407111")
    else Except.error CErrno.einval

/-- pgmoneta_wal_get_tablespace_version_directory from relpath.c: NULL
config sets errno EINVAL; a catalog-number failure is propagated;
otherwise the result is formatted with "PG_%d_%s". -/
def pgmoneta_wal_get_tablespace_version_directory (server_config : Option ServerConfig) :
    Except CErrno String :=
  match server_config with
  | none => Except.error CErrno.einval
  | some c =>
    match pgmoneta_wal_get_catalog_version_number (some c) with
    | Except.error e => Except.error e
    | Except.ok catalog_version =>
        Except.ok (("PG_") ++ toString c.version ++ ("_") ++ catalog_version)

/-- pgmoneta_wal_get_relation_path from relpath.c.  oids (dbNode, spcNode,
relNode) are C unsigned ints, modelled as Nat; backendId and forkNumber
are C ints, modelled as Int.  Each pgmoneta_format_and_append call is
translated into the string its format produces (%u on an oid and %d on
backendId print exactly the decimal representation toString gives). -/
def pgmoneta_wal_get_relation_path (server_config : Option ServerConfig)
    (dbNode spcNode relNode : Nat) (backendId : Int) (forkNumber : Int) :
    Except CErrno String :=
  if !(is_valid_fork_number forkNumber) then Except.error CErrno.einval
  else if spcNode = GLOBALTABLESPACE_OID then
    if dbNode ≠ 0 ∨ backendId ≠ INVALID_BACKEND_ID then Except.error CErrno.einval
    else if forkNumber ≠ MAIN_FORKNUM then
      Except.ok (("global/") ++ toString relNode ++ ("_") ++ FORK_NAMES forkNumber)
    else
      Except.ok (("global/") ++ toString relNode)
  else if spcNode = DEFAULTTABLESPACE_OID then
    if backendId = INVALID_BACKEND_ID then
      if forkNumber ≠ MAIN_FORKNUM then
        Except.ok (("base/") ++ toString dbNode ++ ("/") ++ toString relNode
          ++ ("_") ++ FORK_NAMES forkNumber)
      else
        Except.ok (("base/") ++ toString dbNode ++ ("/") ++ toString relNode)
    else
      if forkNumber ≠ MAIN_FORKNUM then
        Except.ok (("base/") ++ toString dbNode ++ ("/t") ++ toString backendId
          ++ ("_") ++ toString relNode ++ ("_") ++ FORK_NAMES forkNumber)
      else
        Except.ok (("base/") ++ toString dbNode ++ ("/t") ++ toString backendId
          ++ ("_") ++ toString relNode)
  else
    match pgmoneta_wal_get_tablespace_version_directory server_config with
    | Except.error e => Except.error e
    | Except.ok version_directory =>
      if backendId = INVALID_BACKEND_ID then
        if forkNumber ≠ MAIN_FORKNUM then
          Except.ok (("pg_tblspc/") ++ toString spcNode ++ ("/") ++ version_directory
            ++ ("/") ++ toString dbNode ++ ("/") ++ toString relNode
            ++ ("_") ++ FORK_NAMES forkNumber)
        else
          Except.ok (("pg_tblspc/") ++ toString spcNode ++ ("/") ++ version_directory
            ++ ("/") ++ toString dbNode ++ ("/") ++ toString relNode)
      else
        if forkNumber ≠ MAIN_FORKNUM then
          Except.ok (("pg_tblspc/") ++ toString spcNode ++ ("/") ++ version_directory
            ++ ("/") ++ toString dbNode ++ ("/t") ++ toString backendId
            ++ ("_") ++ toString relNode ++ ("_") ++ FORK_NAMES forkNumber)
        else
          Except.ok (("pg_tblspc/") ++ toString spcNode ++ ("/") ++ version_directory
            ++ ("/") ++ toString dbNode ++ ("/t") ++ toString backendId
            ++ ("_") ++ toString relNode)

/-- A workflow step of archive.c, abstracted to the outcomes of its three
phase functions: archive.c's control flow inspects nothing of a phase call
except whether its int return is zero (success, modelled true) or nonzero
(failure, goto error).  Quantifying over all Bool triples covers every
return-value sequence a real run can produce. -/
structure Step where
  setupOk : Bool
  executeOk : Bool
  teardownOk : Bool
deriving DecidableEq

/-- One observable phase invocation of the executor: which phase was
called on which step (0-based position in the workflow list). -/
inductive PhaseEvent
| setupEv (i : Nat)
| executeEv (i : Nat)
| teardownEv (i : Nat)
deriving DecidableEq

/-- One while loop of pgmoneta_archive over the workflow list, for the
phase selected by f: walk the steps in list order, stop at the first
failure (goto error).  Returns how many steps were invoked - the invoked
steps are exactly positions 0 .. n-1, in that order, the failing
invocation included - and whether every invoked call succeeded. -/
def runPhase (f : Step → Bool) : List Step → Nat × Bool
  | [] => (0, true)
  | s :: rest =>
    if f s then
      let r := runPhase f rest
      (r.1 + 1, r.2)
    else (1, false)

/-- The three phase loops of pgmoneta_archive (archive.c lines 99-129):
all setups in construction order, then all executes, then all teardowns,
where any failure jumps to the error label and skips everything after it.
The result is the full trace of phase invocations plus the success flag. -/
def runPipeline (steps : List Step) : List PhaseEvent × Bool :=
  let su := runPhase Step.setupOk steps
  if su.2 then
    let ex := runPhase Step.executeOk steps
    if ex.2 then
      let td := runPhase Step.teardownOk steps
      ((List.range su.1).map PhaseEvent.setupEv
        ++ (List.range ex.1).map PhaseEvent.executeEv
        ++ (List.range td.1).map PhaseEvent.teardownEv, td.2)
    else
      ((List.range su.1).map PhaseEvent.setupEv
        ++ (List.range ex.1).map PhaseEvent.executeEv, false)
  else
    ((List.range su.1).map PhaseEvent.setupEv, false)

/-- An action pgmoneta_archive performs on the caller-provided client
socket: writing the 4-byte status integer, or disconnecting (closing) it. -/
inductive ChanAct
| writeInt32 (v : Int)
| disconnect
deriving DecidableEq

/-- pgmoneta_archive from archive.c, restricted to its observable effect
on the client channel and its exit code.  restoreOk is whether the initial
pgmoneta_restore_backup call succeeded (returned 0).  On restore success
the result variable is set to 0 and the pipeline runs; only if all three
phase loops finish does control reach the write of result and the
disconnect, followed by exit(0).  Any phase failure reaches the error
label, which performs no channel action and calls exit(1).  On restore
failure the pipeline is skipped and result stays 1, so 1 is written,
the channel disconnected and exit(0) called.  Node allocation
(pgmoneta_create_node_string) is assumed to succeed, and logging /
process-title calls are omitted as effect-free for the channel. -/
def pgmoneta_archive (restoreOk : Bool) (steps : List Step) : List ChanAct × Nat :=
  if restoreOk then
    let r := runPipeline steps
    if r.2 then ([ChanAct.writeInt32 0, ChanAct.disconnect], 0)
    else ([], 1)
  else
    ([ChanAct.writeInt32 1, ChanAct.disconnect], 0)

theorem runPhase_all_true (f : Step → Bool) :
    ∀ (steps : List Step), (∀ s ∈ steps, f s = true) →
      runPhase f steps = (steps.length, true)
  | [], _ => rfl
  | s :: rest, h => by
    have hs := h s (List.mem_cons_self s rest)
    have ih := runPhase_all_true f rest (fun x hx => h x (List.mem_cons_of_mem s hx))
    simp [runPhase, hs, ih]

theorem runPhase_first_false (f : Step → Bool) :
    ∀ (steps : List Step) (k : Nat) (hk : k < steps.length),
      f (steps.get ⟨k, hk⟩) = false →
      (∀ j (hj : j < k), f (steps.get ⟨j, Nat.lt_trans hj hk⟩) = true) →
      runPhase f steps = (k + 1, false)
  | [], k, hk, _, _ => absurd hk (Nat.not_lt_zero k)
  | s :: rest, 0, _, hfail, _ => by
    simp only [List.get] at hfail
    simp [runPhase, hfail]
  | s :: rest, k + 1, hk, hfail, hok => by
    have hs : f s = true := hok 0 (Nat.succ_pos k)
    have ih := runPhase_first_false f rest k (Nat.lt_of_succ_lt_succ hk)
      hfail (fun j hj => hok (j + 1) (Nat.succ_lt_succ hj))
    simp [runPhase, hs, ih]

theorem runPhase_exists_false (f : Step → Bool) :
    ∀ (steps : List Step), (∃ s ∈ steps, f s = false) →
      (runPhase f steps).2 = false
  | [], h => absurd h (by simp)
  | s :: rest, h => by
    by_cases hs : f s = true
    · obtain ⟨x, hx, hfx⟩ := h
      rcases List.mem_cons.mp hx with h1 | h2
      · rw [h1, hs] at hfx
        cases hfx
      · have ih := runPhase_exists_false f rest ⟨x, h2, hfx⟩
        simp [runPhase, hs, ih]
    · have hs2 : f s = false := Bool.eq_false_iff.mpr hs
      simp [runPhase, hs2]

theorem catalog_version_out_of_range (c : ServerConfig)
    (h : c.version < MIN_PG_VERSION ∨ c.version > MAX_PG_VERSION) :
    pgmoneta_wal_get_catalog_version_number (some c) = Except.error CErrno.einval := by
  simp only [pgmoneta_wal_get_catalog_version_number]
  rw [if_pos h]

theorem version_directory_out_of_range (c : ServerConfig)
    (h : c.version < MIN_PG_VERSION ∨ c.version > MAX_PG_VERSION) :
    pgmoneta_wal_get_tablespace_version_directory (some c) = Except.error CErrno.einval := by
  simp only [pgmoneta_wal_get_tablespace_version_directory,
    catalog_version_out_of_range c h]

/-- C2: in the global tablespace with database_oid 0 and backend_id
INVALID, resolve yields global/<relation_oid> for the MAIN fork and
global/<relation_oid>_<fork_name> for the FSM, VM and INIT forks, for
every relation oid and every configuration; in particular
resolve(1262, GLOBAL, FSM, INVALID, 0) is global/1262_fsm. -/
theorem relation_path_global_tablespace (cfg : Option ServerConfig) (relNode : Nat) :
    pgmoneta_wal_get_relation_path cfg 0 GLOBALTABLESPACE_OID relNode
        INVALID_BACKEND_ID MAIN_FORKNUM = Except.ok (("global/") ++ toString relNode) ∧
    pgmoneta_wal_get_relation_path cfg 0 GLOBALTABLESPACE_OID relNode
        INVALID_BACKEND_ID FSM_FORKNUM =
      Except.ok (("global/") ++ toString relNode ++ ("_fsm")) ∧
    pgmoneta_wal_get_relation_path cfg 0 GLOBALTABLESPACE_OID relNode
        INVALID_BACKEND_ID VISIBILITYMAP_FORKNUM =
      Except.ok (("global/") ++ toString relNode ++ ("_vm")) ∧
    pgmoneta_wal_get_relation_path cfg 0 GLOBALTABLESPACE_OID relNode
        INVALID_BACKEND_ID INIT_FORKNUM =
      Except.ok (("global/") ++ toString relNode ++ ("_init")) ∧
    pgmoneta_wal_get_relation_path none 0 GLOBALTABLESPACE_OID 1262
        INVALID_BACKEND_ID FSM_FORKNUM = Except.ok ("global/1262_fsm") := by
  refine ⟨?_, ?_, ?_, ?_, by decide⟩ <;>
    simp [pgmoneta_wal_get_relation_path, is_valid_fork_number, FORK_NAMES,
      GLOBALTABLESPACE_OID, INVALID_BACKEND_ID, MAIN_FORKNUM, FSM_FORKNUM,
      VISIBILITYMAP_FORKNUM, INIT_FORKNUM, String.append_assoc]

/-- C3: in the default tablespace resolve yields
base/<database_oid>/<relation_oid> for the MAIN fork, the _<fork_name>
suffix for the other forks, and a t<backend_id>_ infix immediately before
the relation oid whenever backend_id is not INVALID; in particular
resolve(2608, 16384, DEFAULT, INVALID, MAIN) is base/16384/2608 and
resolve(2608, 16384, DEFAULT, 7, MAIN) is base/16384/t7_2608. -/
theorem relation_path_default_tablespace (cfg : Option ServerConfig)
    (dbNode relNode : Nat) (backendId : Int)
    (hb : backendId ≠ INVALID_BACKEND_ID) :
    pgmoneta_wal_get_relation_path cfg dbNode DEFAULTTABLESPACE_OID relNode
        INVALID_BACKEND_ID MAIN_FORKNUM =
      Except.ok (("base/") ++ toString dbNode ++ ("/") ++ toString relNode) ∧
    pgmoneta_wal_get_relation_path cfg dbNode DEFAULTTABLESPACE_OID relNode
        INVALID_BACKEND_ID FSM_FORKNUM =
      Except.ok (("base/") ++ toString dbNode ++ ("/") ++ toString relNode ++ ("_fsm")) ∧
    pgmoneta_wal_get_relation_path cfg dbNode DEFAULTTABLESPACE_OID relNode
        INVALID_BACKEND_ID VISIBILITYMAP_FORKNUM =
      Except.ok (("base/") ++ toString dbNode ++ ("/") ++ toString relNode ++ ("_vm")) ∧
    pgmoneta_wal_get_relation_path cfg dbNode DEFAULTTABLESPACE_OID relNode
        INVALID_BACKEND_ID INIT_FORKNUM =
      Except.ok (("base/") ++ toString dbNode ++ ("/") ++ toString relNode ++ ("_init")) ∧
    pgmoneta_wal_get_relation_path cfg dbNode DEFAULTTABLESPACE_OID relNode
        backendId MAIN_FORKNUM =
      Except.ok (("base/") ++ toString dbNode ++ ("/t") ++ toString backendId
        ++ ("_") ++ toString relNode) ∧
    pgmoneta_wal_get_relation_path cfg dbNode DEFAULTTABLESPACE_OID relNode
        backendId FSM_FORKNUM =
      Except.ok (("base/") ++ toString dbNode ++ ("/t") ++ toString backendId
        ++ ("_") ++ toString relNode ++ ("_fsm")) ∧
    pgmoneta_wal_get_relation_path cfg dbNode DEFAULTTABLESPACE_OID relNode
        backendId VISIBILITYMAP_FORKNUM =
      Except.ok (("base/") ++ toString dbNode ++ ("/t") ++ toString backendId
        ++ ("_") ++ toString relNode ++ ("_vm")) ∧
    pgmoneta_wal_get_relation_path cfg dbNode DEFAULTTABLESPACE_OID relNode
        backendId INIT_FORKNUM =
      Except.ok (("base/") ++ toString dbNode ++ ("/t") ++ toString backendId
        ++ ("_") ++ toString relNode ++ ("_init")) ∧
    pgmoneta_wal_get_relation_path none 16384 DEFAULTTABLESPACE_OID 2608
        INVALID_BACKEND_ID MAIN_FORKNUM = Except.ok ("base/16384/2608") ∧
    pgmoneta_wal_get_relation_path none 16384 DEFAULTTABLESPACE_OID 2608
        7 MAIN_FORKNUM = Except.ok ("base/16384/t7_2608") := by
  have hb2 : ¬ backendId = -1 := by simpa [INVALID_BACKEND_ID] using hb
  refine ⟨?_, ?_, ?_, ?_, ?_, ?_, ?_, ?_, by decide, by decide⟩ <;>
    simp [pgmoneta_wal_get_relation_path, is_valid_fork_number, FORK_NAMES,
      GLOBALTABLESPACE_OID, DEFAULTTABLESPACE_OID, INVALID_BACKEND_ID, hb2,
      MAIN_FORKNUM, FSM_FORKNUM, VISIBILITYMAP_FORKNUM, INIT_FORKNUM,
      String.append_assoc]

/-- Witness for C3 at cfg absent, database oid 16384, relation oid 2608,
backend id 7. -/
theorem relation_path_default_tablespace_w :
    pgmoneta_wal_get_relation_path none 16384 DEFAULTTABLESPACE_OID 2608
        7 FSM_FORKNUM = Except.ok ("base/16384/t7_2608_fsm") := by
  have h := relation_path_default_tablespace none 16384 2608 7 (by decide)
  have h2 := h.2.2.2.2.2.1
  rw [h2]
  decide

/-- C4: for every supported major version v between 13 and 17 the version
directory is exactly PG_<v>_<catalog_constant(v)>, where the catalog
constant is the one the catalog table returns for v; in particular
version 14 gives PG_14_202104081 and version 16 gives PG_16_202303311. -/
theorem tablespace_version_directory_format (v : Int)
    (h13 : 13 ≤ v) (h17 : v ≤ 17) :
    (∃ s, pgmoneta_wal_get_catalog_version_number (some ⟨v⟩) = Except.ok s ∧
      pgmoneta_wal_get_tablespace_version_directory (some ⟨v⟩) =
        Except.ok (("PG_") ++ toString v ++ ("_") ++ s)) ∧
    pgmoneta_wal_get_tablespace_version_directory (some ⟨14⟩) =
      Except.ok ("PG_14_202104081") ∧
    pgmoneta_wal_get_tablespace_version_directory (some ⟨16⟩) =
      Except.ok ("PG_16_202303311") := by
  refine ⟨?_, by decide, by decide⟩
  interval_cases v
  · exact ⟨("202004022"), by decide, by decide⟩
  · exact ⟨("202104081"), by decide, by decide⟩
  · exact ⟨("202204062"), by decide, by decide⟩
  · exact ⟨("202303311"), by decide, by decide⟩
  · exact ⟨("202407111"), by decide, by decide⟩

/-- Witness for C4 at version 14. -/
theorem tablespace_version_directory_format_w :
    pgmoneta_wal_get_tablespace_version_directory (some ⟨14⟩) =
      Except.ok ("PG_14_202104081") :=
  (tablespace_version_directory_format 14 (by decide) (by decide)).2.1

/-- C7: for every major version outside the inclusive range 13..17 (12 and
18 in particular) both the catalog constant and the version directory fail
with the invalid-input error, and for every version inside the range the
catalog constant is a 9-digit string. -/
theorem catalog_version_supported_range :
    (∀ v : Int, (v < MIN_PG_VERSION ∨ v > MAX_PG_VERSION) →
      pgmoneta_wal_get_catalog_version_number (some ⟨v⟩) = Except.error CErrno.einval ∧
      pgmoneta_wal_get_tablespace_version_directory (some ⟨v⟩) =
        Except.error CErrno.einval) ∧
    (∀ v : Int, 13 ≤ v → v ≤ 17 →
      ∃ s, pgmoneta_wal_get_catalog_version_number (some ⟨v⟩) = Except.ok s ∧
        s.length = 9 ∧ s.toList.all Char.isDigit = true) ∧
    pgmoneta_wal_get_catalog_version_number (some ⟨12⟩) = Except.error CErrno.einval ∧
    pgmoneta_wal_get_catalog_version_number (some ⟨18⟩) = Except.error CErrno.einval ∧
    pgmoneta_wal_get_tablespace_version_directory (some ⟨12⟩) =
      Except.error CErrno.einval ∧
    pgmoneta_wal_get_tablespace_version_directory (some ⟨18⟩) =
      Except.error CErrno.einval := by
  refine ⟨?_, ?_, by decide, by decide, by decide, by decide⟩
  · intro v h
    exact ⟨catalog_version_out_of_range ⟨v⟩ h, version_directory_out_of_range ⟨v⟩ h⟩
  · intro v h13 h17
    interval_cases v
    · exact ⟨("202004022"), by decide, by decide, by decide⟩
    · exact ⟨("202104081"), by decide, by decide, by decide⟩
    · exact ⟨("202204062"), by decide, by decide, by decide⟩
    · exact ⟨("202303311"), by decide, by decide, by decide⟩
    · exact ⟨("202407111"), by decide, by decide, by decide⟩

/-- Witness for C7 at versions 20 (outside the range) and 15 (inside). -/
theorem catalog_version_supported_range_w :
    pgmoneta_wal_get_catalog_version_number (some ⟨20⟩) = Except.error CErrno.einval ∧
    ∃ s, pgmoneta_wal_get_catalog_version_number (some ⟨15⟩) = Except.ok s ∧
      s.length = 9 ∧ s.toList.all Char.isDigit = true :=
  ⟨(catalog_version_supported_range.1 20 (by decide)).1,
   catalog_version_supported_range.2.1 15 (by decide) (by decide)⟩

/-- C8: whenever the fork number lies outside the four known values (is
not between MAIN_FORKNUM and INIT_FORKNUM), resolve fails with the
invalid-input error, for every configuration, database oid, tablespace
oid, relation oid and backend id. -/
theorem invalid_fork_rejected (cfg : Option ServerConfig)
    (dbNode spcNode relNode : Nat) (backendId forkNumber : Int)
    (hf : is_valid_fork_number forkNumber = false) :
    pgmoneta_wal_get_relation_path cfg dbNode spcNode relNode backendId forkNumber =
      Except.error CErrno.einval := by
  simp [pgmoneta_wal_get_relation_path, hf]

/-- Witness for C8 at fork number 4 in the default tablespace. -/
theorem invalid_fork_rejected_w :
    pgmoneta_wal_get_relation_path none 16384 DEFAULTTABLESPACE_OID 2608
        INVALID_BACKEND_ID 4 = Except.error CErrno.einval :=
  invalid_fork_rejected none 16384 DEFAULTTABLESPACE_OID 2608
    INVALID_BACKEND_ID 4 (by decide)

/-- C9: a global-tablespace relation with a nonzero database oid or a
backend id other than INVALID makes resolve fail with the invalid-input
error instead of producing a path, for every valid fork and every
configuration. -/
theorem global_tablespace_validation (cfg : Option ServerConfig)
    (dbNode relNode : Nat) (backendId forkNumber : Int)
    (hf : is_valid_fork_number forkNumber = true)
    (hviol : dbNode ≠ 0 ∨ backendId ≠ INVALID_BACKEND_ID) :
    pgmoneta_wal_get_relation_path cfg dbNode GLOBALTABLESPACE_OID relNode
        backendId forkNumber = Except.error CErrno.einval := by
  simp only [pgmoneta_wal_get_relation_path, hf, Bool.not_true,
    Bool.false_eq_true, if_false, if_pos rfl]
  rw [if_pos hviol]
  simp

/-- Witness for C9 at database oid 5 (nonzero) in the global tablespace,
MAIN fork. -/
theorem global_tablespace_validation_w :
    pgmoneta_wal_get_relation_path none 5 GLOBALTABLESPACE_OID 1262
        INVALID_BACKEND_ID MAIN_FORKNUM = Except.error CErrno.einval :=
  global_tablespace_validation none 5 1262 INVALID_BACKEND_ID MAIN_FORKNUM
    (by decide) (Or.inl (by decide))

/-- C10: the fork number is validated before every other check: an
out-of-range fork makes resolve fail with the invalid-input error (and
with no other error value) and produce no path, for every configuration -
including an absent one - and every tablespace, database oid and backend
id, even ones that also violate the global-tablespace constraint. -/
theorem fork_validated_first (cfg : Option ServerConfig)
    (dbNode spcNode relNode : Nat) (backendId forkNumber : Int)
    (hf : is_valid_fork_number forkNumber = false) :
    pgmoneta_wal_get_relation_path cfg dbNode spcNode relNode backendId forkNumber =
        Except.error CErrno.einval ∧
    (∀ s, pgmoneta_wal_get_relation_path cfg dbNode spcNode relNode backendId
        forkNumber ≠ Except.ok s) ∧
    pgmoneta_wal_get_relation_path none 5 GLOBALTABLESPACE_OID 10 7 4 =
      Except.error CErrno.einval := by
  have h : pgmoneta_wal_get_relation_path cfg dbNode spcNode relNode backendId
      forkNumber = Except.error CErrno.einval := by
    simp [pgmoneta_wal_get_relation_path, hf]
  refine ⟨h, ?_, by decide⟩
  intro s hs
  rw [h] at hs
  cases hs

/-- Witness for C10 at fork number -1, absent configuration, global
tablespace with nonzero database oid and a temporary backend id. -/
theorem fork_validated_first_w :
    pgmoneta_wal_get_relation_path none 5 GLOBALTABLESPACE_OID 10 7 (-1) =
      Except.error CErrno.einval :=
  (fork_validated_first none 5 GLOBALTABLESPACE_OID 10 7 (-1) (by decide)).1

/-- Counterexample for C6: with the configuration absent, a
global-tablespace resolve does not fail with the invalid-input error - it
silently succeeds, because relpath.c only consults server_config on the
custom-tablespace branch. -/
theorem resolver_config_requirement_counter :
    pgmoneta_wal_get_relation_path none 0 GLOBALTABLESPACE_OID 1262
        INVALID_BACKEND_ID MAIN_FORKNUM = Except.ok ("global/1262") ∧
    pgmoneta_wal_get_relation_path none 16384 DEFAULTTABLESPACE_OID 2608
        INVALID_BACKEND_ID MAIN_FORKNUM = Except.ok ("base/16384/2608") := by
  constructor <;> decide

/-- C6 (amended): absence of the configuration, or an out-of-range target
major version, makes resolve fail with the invalid-input error only for
custom tablespaces, the single case in which relpath.c consults
server_config; the global and default tablespace branches never read the
configuration, so resolve succeeds there even when it is absent. -/
theorem resolver_config_requirement :
    (∀ (cfg : Option ServerConfig) (dbNode spcNode relNode : Nat)
        (backendId forkNumber : Int),
      is_valid_fork_number forkNumber = true →
      spcNode ≠ GLOBALTABLESPACE_OID →
      spcNode ≠ DEFAULTTABLESPACE_OID →
      (cfg = none ∨ ∃ c, cfg = some c ∧
        (c.version < MIN_PG_VERSION ∨ c.version > MAX_PG_VERSION)) →
      pgmoneta_wal_get_relation_path cfg dbNode spcNode relNode backendId
        forkNumber = Except.error CErrno.einval) ∧
    (∀ (dbNode relNode : Nat) (backendId forkNumber : Int),
      is_valid_fork_number forkNumber = true →
      ∃ s, pgmoneta_wal_get_relation_path none dbNode DEFAULTTABLESPACE_OID
        relNode backendId forkNumber = Except.ok s) ∧
    (∀ (relNode : Nat) (forkNumber : Int),
      is_valid_fork_number forkNumber = true →
      ∃ s, pgmoneta_wal_get_relation_path none 0 GLOBALTABLESPACE_OID
        relNode INVALID_BACKEND_ID forkNumber = Except.ok s) := by
  refine ⟨?_, ?_, ?_⟩
  · intro cfg dbNode spcNode relNode backendId forkNumber hf hg hd hcfg
    have hvd : pgmoneta_wal_get_tablespace_version_directory cfg =
        Except.error CErrno.einval := by
      rcases hcfg with h1 | ⟨c, h2, h3⟩
      · rw [h1]
        rfl
      · rw [h2]
        exact version_directory_out_of_range c h3
    simp [pgmoneta_wal_get_relation_path, hf, hg, hd, hvd]
  · intro dbNode relNode backendId forkNumber hf
    have hbound : ¬(forkNumber < 0 ∨ 3 < forkNumber) := by
      simp [is_valid_fork_number, MAIN_FORKNUM, INIT_FORKNUM] at hf
      omega
    by_cases hb : backendId = -1 <;> by_cases hm : forkNumber = 0 <;>
      simp [pgmoneta_wal_get_relation_path, is_valid_fork_number, hbound, hb, hm,
        GLOBALTABLESPACE_OID, DEFAULTTABLESPACE_OID, INVALID_BACKEND_ID,
        MAIN_FORKNUM, INIT_FORKNUM]
  · intro relNode forkNumber hf
    have hbound : ¬(forkNumber < 0 ∨ 3 < forkNumber) := by
      simp [is_valid_fork_number, MAIN_FORKNUM, INIT_FORKNUM] at hf
      omega
    by_cases hm : forkNumber = 0 <;>
      simp [pgmoneta_wal_get_relation_path, is_valid_fork_number, hbound, hm,
        GLOBALTABLESPACE_OID, INVALID_BACKEND_ID, MAIN_FORKNUM, INIT_FORKNUM]

/-- Witness for C6 (amended): custom tablespace 99 with absent
configuration fails; the same inputs in the default and global tablespaces
succeed with the configuration still absent. -/
theorem resolver_config_requirement_w :
    pgmoneta_wal_get_relation_path none 5 99 10 INVALID_BACKEND_ID
        MAIN_FORKNUM = Except.error CErrno.einval ∧
    (∃ s, pgmoneta_wal_get_relation_path none 5 DEFAULTTABLESPACE_OID 10
        INVALID_BACKEND_ID MAIN_FORKNUM = Except.ok s) ∧
    (∃ s, pgmoneta_wal_get_relation_path none 0 GLOBALTABLESPACE_OID 10
        INVALID_BACKEND_ID MAIN_FORKNUM = Except.ok s) :=
  ⟨resolver_config_requirement.1 none 5 99 10 INVALID_BACKEND_ID MAIN_FORKNUM
      (by decide) (by decide) (by decide) (Or.inl rfl),
   resolver_config_requirement.2.1 5 10 INVALID_BACKEND_ID MAIN_FORKNUM (by decide),
   resolver_config_requirement.2.2 10 MAIN_FORKNUM (by decide)⟩

/-- C1: the executor is breadth-first over phases.  Part 1: any setup
failure makes the result a failure and the trace holds only setup
invocations (no execute or teardown ever runs).  Part 2: if the first
setup failure is at step k, exactly the setups of steps 0..k were invoked
in construction order and nothing else.  Part 3: if every setup succeeds
and the first execute failure is at step k, the full setup phase precedes
the executes of steps 0..k in the trace - the executes of 0..k-1 completed
before the failure - with no teardown and no later execute invoked.
Part 4: if every setup succeeds and the first teardown failure is at step
k, all setups and all executes precede the teardowns of 0..k and the
result is failure.  Part 5: with no failures, every phase runs over all
steps in construction order - setups, then executes, then teardowns - and
the result is success. -/
theorem pipeline_breadth_first_first_failure_wins :
    (∀ (steps : List Step) (k : Nat) (hk : k < steps.length),
      (steps.get ⟨k, hk⟩).setupOk = false →
      (runPipeline steps).2 = false ∧
      ∀ e ∈ (runPipeline steps).1, ∃ j, e = PhaseEvent.setupEv j) ∧
    (∀ (steps : List Step) (k : Nat) (hk : k < steps.length),
      (steps.get ⟨k, hk⟩).setupOk = false →
      (∀ j (hj : j < k), (steps.get ⟨j, Nat.lt_trans hj hk⟩).setupOk = true) →
      runPipeline steps = ((List.range (k + 1)).map PhaseEvent.setupEv, false)) ∧
    (∀ (steps : List Step) (k : Nat) (hk : k < steps.length),
      (∀ s ∈ steps, s.setupOk = true) →
      (steps.get ⟨k, hk⟩).executeOk = false →
      (∀ j (hj : j < k), (steps.get ⟨j, Nat.lt_trans hj hk⟩).executeOk = true) →
      runPipeline steps =
        ((List.range steps.length).map PhaseEvent.setupEv ++
          (List.range (k + 1)).map PhaseEvent.executeEv, false)) ∧
    (∀ (steps : List Step) (k : Nat) (hk : k < steps.length),
      (∀ s ∈ steps, s.setupOk = true) →
      (∀ s ∈ steps, s.executeOk = true) →
      (steps.get ⟨k, hk⟩).teardownOk = false →
      (∀ j (hj : j < k), (steps.get ⟨j, Nat.lt_trans hj hk⟩).teardownOk = true) →
      runPipeline steps =
        ((List.range steps.length).map PhaseEvent.setupEv ++
          (List.range steps.length).map PhaseEvent.executeEv ++
          (List.range (k + 1)).map PhaseEvent.teardownEv, false)) ∧
    (∀ (steps : List Step),
      (∀ s ∈ steps, s.setupOk = true ∧ s.executeOk = true ∧ s.teardownOk = true) →
      runPipeline steps =
        ((List.range steps.length).map PhaseEvent.setupEv ++
          (List.range steps.length).map PhaseEvent.executeEv ++
          (List.range steps.length).map PhaseEvent.teardownEv, true)) := by
  refine ⟨?_, ?_, ?_, ?_, ?_⟩
  · intro steps k hk hfail
    have hex : (runPhase Step.setupOk steps).2 = false :=
      runPhase_exists_false Step.setupOk steps
        ⟨steps.get ⟨k, hk⟩, List.get_mem steps k hk, hfail⟩
    constructor
    · simp [runPipeline, hex]
    · intro e he
      simp only [runPipeline, hex] at he
      simp only [Bool.false_eq_true, if_false, List.mem_map] at he
      obtain ⟨j, _, hj⟩ := he
      exact ⟨j, hj.symm⟩
  · intro steps k hk hfail hok
    have h1 := runPhase_first_false Step.setupOk steps k hk hfail hok
    simp [runPipeline, h1]
  · intro steps k hk hsetup hfail hok
    have h1 := runPhase_all_true Step.setupOk steps hsetup
    have h2 := runPhase_first_false Step.executeOk steps k hk hfail hok
    simp [runPipeline, h1, h2]
  · intro steps k hk hsetup hexec hfail hok
    have h1 := runPhase_all_true Step.setupOk steps hsetup
    have h2 := runPhase_all_true Step.executeOk steps hexec
    have h3 := runPhase_first_false Step.teardownOk steps k hk hfail hok
    simp [runPipeline, h1, h2, h3]
  · intro steps h
    have h1 := runPhase_all_true Step.setupOk steps (fun s hs => (h s hs).1)
    have h2 := runPhase_all_true Step.executeOk steps (fun s hs => (h s hs).2.1)
    have h3 := runPhase_all_true Step.teardownOk steps (fun s hs => (h s hs).2.2)
    simp [runPipeline, h1, h2, h3]

/-- Witness for C1: three-step sequences where step 2 (index 1) fails its
setup, execute, or teardown, and an all-success sequence. -/
theorem pipeline_breadth_first_first_failure_wins_w :
    runPipeline [Step.mk false true true, Step.mk true true true] =
      ((List.range 1).map PhaseEvent.setupEv, false) ∧
    runPipeline [Step.mk true true true, Step.mk true false true,
        Step.mk true true true] =
      ((List.range 3).map PhaseEvent.setupEv ++
        (List.range 2).map PhaseEvent.executeEv, false) ∧
    runPipeline [Step.mk true true true, Step.mk true true false,
        Step.mk true true true] =
      ((List.range 3).map PhaseEvent.setupEv ++
        (List.range 3).map PhaseEvent.executeEv ++
        (List.range 2).map PhaseEvent.teardownEv, false) ∧
    runPipeline [Step.mk true true true, Step.mk true true true] =
      ((List.range 2).map PhaseEvent.setupEv ++
        (List.range 2).map PhaseEvent.executeEv ++
        (List.range 2).map PhaseEvent.teardownEv, true) :=
  ⟨pipeline_breadth_first_first_failure_wins.2.1
      [Step.mk false true true, Step.mk true true true] 0 (by decide)
      (by decide) (by decide),
   pipeline_breadth_first_first_failure_wins.2.2.1
      [Step.mk true true true, Step.mk true false true, Step.mk true true true]
      1 (by decide) (by decide) (by decide) (by decide),
   pipeline_breadth_first_first_failure_wins.2.2.2.1
      [Step.mk true true true, Step.mk true true false, Step.mk true true true]
      1 (by decide) (by decide) (by decide) (by decide) (by decide),
   pipeline_breadth_first_first_failure_wins.2.2.2.2
      [Step.mk true true true, Step.mk true true true] (by decide)⟩

/-- Counterexample for C5: a one-step workflow whose execute fails is a
failure outcome on which pgmoneta_archive performs no channel action at
all - the error label skips both the status write and the disconnect and
the process exits with code 1 - so no 4-byte status code 1 followed by
closure is ever written for this outcome. -/
theorem archive_status_channel_counter :
    (runPipeline [Step.mk true false true]).2 = false ∧
    pgmoneta_archive true [Step.mk true false true] = ([], 1) ∧
    ¬ (pgmoneta_archive true [Step.mk true false true]).1 =
        [ChanAct.writeInt32 1, ChanAct.disconnect] := by
  refine ⟨by decide, by decide, by decide⟩

/-- C5 (amended): the single status write followed by channel closure
happens exactly once only on the two paths that reach the end of
pgmoneta_archive - 0 when the restore and the whole pipeline succeed, 1
when the initial restore fails - while a failure in any pipeline phase
reaches the error label, which writes nothing, never closes the channel,
and exits the process with code 1. -/
theorem archive_status_channel :
    (∀ steps : List Step,
      pgmoneta_archive false steps = ([ChanAct.writeInt32 1, ChanAct.disconnect], 0)) ∧
    (∀ steps : List Step, (runPipeline steps).2 = true →
      pgmoneta_archive true steps = ([ChanAct.writeInt32 0, ChanAct.disconnect], 0)) ∧
    (∀ steps : List Step, (runPipeline steps).2 = false →
      pgmoneta_archive true steps = ([], 1)) := by
  refine ⟨?_, ?_, ?_⟩
  · intro steps
    rfl
  · intro steps h
    simp [pgmoneta_archive, h]
  · intro steps h
    simp [pgmoneta_archive, h]

/-- Witness for C5 (amended): the empty workflow succeeds and gets status
0 plus disconnect; a failing-execute workflow gets no channel action and
exit code 1; a failed restore gets status 1 plus disconnect. -/
theorem archive_status_channel_w :
    pgmoneta_archive false [] = ([ChanAct.writeInt32 1, ChanAct.disconnect], 0) ∧
    pgmoneta_archive true [] = ([ChanAct.writeInt32 0, ChanAct.disconnect], 0) ∧
    pgmoneta_archive true [Step.mk true false true] = ([], 1) :=
  ⟨archive_status_channel.1 [],
   archive_status_channel.2.1 [] (by decide),
   archive_status_channel.2.2 [Step.mk true false true] (by decide)⟩
